import Mathlib

/-!
Verification of `consolidate_design_metrics.py`.

A shallow embedding of the metric-consolidation and ranking engine of the
`nf-proteindesign` repository (`src/assets/consolidate_design_metrics.py`),
together with theorems settling the specification claims about it.

Modelling conventions:
* Python floats are modelled as rationals (`ℚ`); the claims under
  verification are structural (which metrics contribute, how records are
  merged, how candidates are ordered), not about IEEE-754 rounding.
* Python dicts are modelled as association lists with insertion-order
  semantics: overwriting a key keeps its position, new keys are appended.
* A Python function that can raise is embedded with an `Except` channel;
  `try/except` blocks become a `match` on that channel.
* File-system reads are passed in as values: a file is `none` (missing),
  `some (.error e)` (unreadable — `open`/`read` raised), or
  `some (.ok contents)`.
-/

/-- A value stored in a metrics dict: Python `None`, a number, a string, or a
nested dict of numeric components (used for `_score_components`). -/
inductive MetricValue where
  | null : MetricValue
  | num : ℚ → MetricValue
  | str : String → MetricValue
  | dictV : List (String × ℚ) → MetricValue
deriving DecidableEq

/-- A Python dict with string keys, as an insertion-ordered association list. -/
abbrev MetricMap := List (String × MetricValue)

/-- Python `d.get(k)` / `d[k]`: the value bound to `k`, if any. -/
def Dict.lookup (d : List (String × α)) (k : String) : Option α :=
  match d.find? (fun p => p.1 == k) with
  | some p => some p.2
  | none => none

/-- Python `k in d`. -/
def Dict.hasKey (d : List (String × α)) (k : String) : Bool :=
  d.any (fun p => p.1 == k)

/-- Python `d[k] = v`: overwrite in place (keeping the key's position) or
append a new binding. -/
def Dict.set (d : List (String × α)) (k : String) (v : α) : List (String × α) :=
  if Dict.hasKey d k then d.map (fun p => if p.1 == k then (k, v) else p)
  else d ++ [(k, v)]

/-- Python `d1.update(d2)` (returning the updated dict). -/
def Dict.update (d1 d2 : List (String × α)) : List (String × α) :=
  d2.foldl (fun acc p => Dict.set acc p.1 p.2) d1

/-- The keys of a dict, in insertion order. -/
def Dict.keys (d : List (String × α)) : List String := d.map Prod.fst

instance {ε α : Type} [DecidableEq ε] [DecidableEq α] : DecidableEq (Except ε α)
  | .ok x, .ok y =>
      match decEq x y with
      | isTrue h => isTrue (h ▸ rfl)
      | isFalse h => isFalse (fun hh => h (Except.ok.inj hh))
  | .error x, .error y =>
      match decEq x y with
      | isTrue h => isTrue (h ▸ rfl)
      | isFalse h => isFalse (fun hh => h (Except.error.inj hh))
  | .ok _, .error _ => isFalse (fun hh => Except.noConfusion hh)
  | .error _, .ok _ => isFalse (fun hh => Except.noConfusion hh)

/-! ## Python string primitives used by the parsers -/

/-- Strip leading and trailing whitespace from a character list
(Python `str.strip()`). -/
def trimChars (l : List Char) : List Char :=
  ((l.dropWhile Char.isWhitespace).reverse.dropWhile Char.isWhitespace).reverse

/-- Python `s.strip()`. -/
def pyStrip (s : String) : String := ⟨trimChars s.data⟩

/-- Auxiliary for splitting a character list on a separator character. -/
def splitOnCharAux (c : Char) : List Char → List Char → List (List Char)
  | [], acc => [acc.reverse]
  | x :: xs, acc =>
      if x = c then acc.reverse :: splitOnCharAux c xs []
      else splitOnCharAux c xs (x :: acc)

/-- Python `s.split(c)` for a single-character separator (no collapsing;
`"".split(c) == [""]`). -/
def pySplitChar (c : Char) (s : String) : List String :=
  (splitOnCharAux c s.data []).map fun l => ⟨l⟩

/-- Whether `p` is a prefix of `l` (on characters). -/
def startsWithChars : List Char → List Char → Bool
  | [], _ => true
  | _ :: _, [] => false
  | p :: ps, x :: xs => p == x && startsWithChars ps xs

/-- Whether `pat` occurs as a contiguous substring. -/
def containsSubChars (pat : List Char) : List Char → Bool
  | [] => startsWithChars pat []
  | x :: xs => startsWithChars pat (x :: xs) || containsSubChars pat xs

/-- Python `pat in s` (substring containment). -/
def pyContains (s pat : String) : Bool := containsSubChars pat.data s.data

/-! ## Python numeric conversions -/

/-- All characters are ASCII digits. -/
def allDigits (l : List Char) : Bool := l.all Char.isDigit

/-- The natural number denoted by a digit string (`0` for the empty list). -/
def natOfDigits (l : List Char) : Nat :=
  l.foldl (fun a c => a * 10 + (c.toNat - 48)) 0

/-- Split a float literal at the first `e`/`E` into mantissa and exponent. -/
def splitAtExp : List Char → (List Char × Option (List Char))
  | [] => ([], none)
  | c :: cs =>
      if c = 'e' || c = 'E' then ([], some cs)
      else
        let r := splitAtExp cs
        (c :: r.1, r.2)

/-- Parse an unsigned decimal mantissa (`"12"`, `"12.5"`, `"12."`, `".5"`). -/
def parseMantissa (l : List Char) : Option ℚ :=
  match splitOnCharAux '.' l [] with
  | [ip] => if allDigits ip && ip ≠ [] then some ((natOfDigits ip : ℚ)) else none
  | [ip, fp] =>
      if allDigits ip && allDigits fp && (ip ≠ [] || fp ≠ []) then
        some ((natOfDigits ip : ℚ) + (natOfDigits fp : ℚ) / (10 : ℚ) ^ fp.length)
      else none
  | _ => none

/-- Parse an optionally-signed exponent digit string. -/
def parseExpPart (l : List Char) : Option ℤ :=
  match l with
  | '+' :: rest => if allDigits rest && rest ≠ [] then some ((natOfDigits rest : ℤ)) else none
  | '-' :: rest => if allDigits rest && rest ≠ [] then some (-(natOfDigits rest : ℤ)) else none
  | rest => if allDigits rest && rest ≠ [] then some ((natOfDigits rest : ℤ)) else none

/-- Scale a mantissa by a signed power of ten. -/
def applyExp (q : ℚ) (e : ℤ) : ℚ :=
  if 0 ≤ e then q * (10 : ℚ) ^ e.toNat else q / (10 : ℚ) ^ (-e).toNat

/-- Parse an unsigned float literal, scientific notation included. -/
def parseUnsignedFloat (l : List Char) : Option ℚ :=
  let me := splitAtExp l
  match parseMantissa me.1, me.2 with
  | some q, none => some q
  | some q, some el => (parseExpPart el).map (applyExp q)
  | none, _ => none

/-- Model of Python `float(s)` on decimal/scientific literals: strip
whitespace, optional sign, then the literal. (`inf`/`nan` and underscore
separators are not modelled; no input in this development uses them.)
Raises `ValueError` on anything else. -/
def pyFloat (s : String) : Except String ℚ :=
  match trimChars s.data with
  | '+' :: rest =>
      match parseUnsignedFloat rest with
      | some q => .ok q
      | none => .error ("ValueError: could not convert string to float: " ++ s)
  | '-' :: rest =>
      match parseUnsignedFloat rest with
      | some q => .ok (-q)
      | none => .error ("ValueError: could not convert string to float: " ++ s)
  | rest =>
      match parseUnsignedFloat rest with
      | some q => .ok q
      | none => .error ("ValueError: could not convert string to float: " ++ s)

/-- Model of Python `int(s)` on decimal literals. -/
def pyInt (s : String) : Except String ℤ :=
  match trimChars s.data with
  | '+' :: rest =>
      if allDigits rest && rest ≠ [] then .ok ((natOfDigits rest : ℤ))
      else .error ("ValueError: invalid literal for int: " ++ s)
  | '-' :: rest =>
      if allDigits rest && rest ≠ [] then .ok (-(natOfDigits rest : ℤ))
      else .error ("ValueError: invalid literal for int: " ++ s)
  | rest =>
      if allDigits rest && rest ≠ [] then .ok ((natOfDigits rest : ℤ))
      else .error ("ValueError: invalid literal for int: " ++ s)

/-- A file handed to a parser: `none` if it does not exist, `.error` if
opening/reading it raised, `.ok` with its contents otherwise. -/
abbrev FileInput (α : Type) := Option (Except String α)

/-! ## `parse_proteinmpnn_scores` (source lines 247–302)

FASTA score files: every header line `>T=…, sample=…, score=…, …` is split on
commas; `score=`/`global_score=`/`seq_recovery=` fields are collected and the
parser reports the mean of each list. -/

/-- The three score lists accumulated across FASTA headers. -/
structure MpnnAcc where
  scores : List ℚ
  globalScores : List ℚ
  seqRecoveries : List ℚ
deriving DecidableEq

/-- Process one comma-separated header field, as in the source's inner loop:
`float(part.split('=')[1].strip())` appended to the matching list; a malformed
number or missing `=` raises (caught by the enclosing `try`). -/
def mpnnProcessPart (acc : MpnnAcc) (part : String) : Except String MpnnAcc :=
  if pyContains part "score=" && !(pyContains part "global_score") then
    match pySplitChar '=' part with
    | _ :: v :: _ =>
        (pyFloat (pyStrip v)).map fun q => { acc with scores := acc.scores ++ [q] }
    | _ => .error "IndexError: list index out of range"
  else if pyContains part "global_score=" then
    match pySplitChar '=' part with
    | _ :: v :: _ =>
        (pyFloat (pyStrip v)).map fun q => { acc with globalScores := acc.globalScores ++ [q] }
    | _ => .error "IndexError: list index out of range"
  else if pyContains part "seq_recovery=" then
    match pySplitChar '=' part with
    | _ :: v :: _ =>
        (pyFloat (pyStrip v)).map fun q => { acc with seqRecoveries := acc.seqRecoveries ++ [q] }
    | _ => .error "IndexError: list index out of range"
  else .ok acc

/-- Process one file line: header lines (starting `>`) are stripped of the
leading `>`, stripped of whitespace and split on commas. -/
def mpnnProcessLine (acc : MpnnAcc) (line : String) : Except String MpnnAcc :=
  if line.startsWith ">" then
    (pySplitChar ',' (pyStrip (line.drop 1))).foldlM mpnnProcessPart acc
  else .ok acc

/-- The body of the `try` block: fold over all lines. -/
def mpnnBody (lines : List String) : Except String MpnnAcc :=
  lines.foldlM mpnnProcessLine { scores := [], globalScores := [], seqRecoveries := [] }

/-- The initial metrics dict of `parse_proteinmpnn_scores`. -/
def mpnnInit : MetricMap :=
  [("mpnn_score", .null), ("mpnn_global_score", .null),
   ("mpnn_seq_recovery", .null), ("mpnn_num_sequences", .num 0)]

/-- The post-`try` updates: each nonempty list yields its arithmetic mean. -/
def mpnnFinish (acc : MpnnAcc) (m : MetricMap) : MetricMap :=
  let m1 :=
    if acc.scores ≠ [] then
      Dict.set (Dict.set m "mpnn_score" (.num (acc.scores.sum / (acc.scores.length : ℚ))))
        "mpnn_num_sequences" (.num (acc.scores.length : ℚ))
    else m
  let m2 :=
    if acc.globalScores ≠ [] then
      Dict.set m1 "mpnn_global_score"
        (.num (acc.globalScores.sum / (acc.globalScores.length : ℚ)))
    else m1
  if acc.seqRecoveries ≠ [] then
    Dict.set m2 "mpnn_seq_recovery"
      (.num (acc.seqRecoveries.sum / (acc.seqRecoveries.length : ℚ)))
  else m2

/-- The warning printed by `parse_proteinmpnn_scores` on a caught exception. -/
def mpnnWarn (e : String) : String :=
  "Warning: Could not parse ProteinMPNN scores: " ++ e

/-- The function `parse_proteinmpnn_scores`: the outer `Except` is the exception channel of
the Python function (an uncaught exception would surface as `.error`); the
returned pair is the metrics dict and the warnings printed to stderr. -/
def parse_proteinmpnn_scores (input : FileInput (List String)) :
    Except String (MetricMap × List String) :=
  match input with
  | none => .ok (mpnnInit, [])
  | some (.error e) => .ok (mpnnInit, [mpnnWarn e])
  | some (.ok lines) =>
      match mpnnBody lines with
      | .ok acc => .ok (mpnnFinish acc mpnnInit, [])
      | .error e => .ok (mpnnInit, [mpnnWarn e])

/-! ## `parse_prodigy_csv` (source lines 62–91)

The PRODIGY CSV is read through `csv.DictReader`; only the first data row is
used. A row is modelled as the association list from column name to raw cell
string. `float(row[c]) if row.get(c) else None` is falsy on both a missing
column and an empty cell. -/

/-- One `csv.DictReader` row: column name → raw cell text. -/
abbrev CsvRow := List (String × String)

/-- Python `row.get(c)` under truthiness: `none` when the column is absent or
its value is the empty string. -/
def rowTruthy (row : CsvRow) (c : String) : Option String :=
  match Dict.lookup row c with
  | some s => if s = "" then none else some s
  | none => none

/-- The initial metrics dict of `parse_prodigy_csv`. -/
def prodigyInit : MetricMap :=
  [("buried_surface_area", .null), ("num_interface_contacts", .null),
   ("predicted_binding_affinity", .null), ("predicted_kd", .null)]

/-- One assignment `metrics[key] = float(row[col]) if row.get(col) else None`;
the second component is the exception raised by `float`, if any (the partial
dict survives, as the Python `metrics` dict does). -/
def prodigySetFloat (m : MetricMap) (row : CsvRow) (col key : String) :
    MetricMap × Option String :=
  match rowTruthy row col with
  | some s =>
      match pyFloat s with
      | .ok q => (Dict.set m key (.num q), none)
      | .error e => (m, some e)
  | none => (Dict.set m key .null, none)

/-- Same with `int(...)` (for `num_interface_contacts`). -/
def prodigySetInt (m : MetricMap) (row : CsvRow) (col key : String) :
    MetricMap × Option String :=
  match rowTruthy row col with
  | some s =>
      match pyInt s with
      | .ok z => (Dict.set m key (.num (z : ℚ)), none)
      | .error e => (m, some e)
  | none => (Dict.set m key .null, none)

/-- The body of the `try` block: the four assignments on the first row,
stopping (with the partial dict) at the first raised conversion. -/
def prodigyBody (rows : List CsvRow) (m : MetricMap) : MetricMap × Option String :=
  match rows with
  | [] => (m, none)
  | row :: _ =>
      match prodigySetFloat m row "buried_surface_area_A2" "buried_surface_area" with
      | (m1, some e) => (m1, some e)
      | (m1, none) =>
          match prodigySetInt m1 row "num_interface_contacts" "num_interface_contacts" with
          | (m2, some e) => (m2, some e)
          | (m2, none) =>
              match prodigySetFloat m2 row "predicted_binding_affinity_kcal_mol"
                  "predicted_binding_affinity" with
              | (m3, some e) => (m3, some e)
              | (m3, none) =>
                  prodigySetFloat m3 row "predicted_kd_M" "predicted_kd"

/-- The warning printed by `parse_prodigy_csv` on a caught exception. -/
def prodigyWarn (e : String) : String :=
  "Warning: Could not parse PRODIGY CSV: " ++ e

/-- The function `parse_prodigy_csv`: the outer `Except` is the exception channel of the
Python function; the `try/except` is the match on `prodigyBody`'s error
component. -/
def parse_prodigy_csv (input : FileInput (List CsvRow)) :
    Except String (MetricMap × List String) :=
  match input with
  | none => .ok (prodigyInit, [])
  | some (.error e) => .ok (prodigyInit, [prodigyWarn e])
  | some (.ok rows) =>
      match prodigyBody rows prodigyInit with
      | (m, none) => .ok (m, [])
      | (m, some e) => .ok (m, [prodigyWarn e])

/-! ## `parse_foldseek_summary` (source lines 94–130)

A tab-separated file; `next(f)` skips the header (raising `StopIteration`,
caught by the `except`, on an empty file); the first data line is the top hit
if it has at least 12 fields; `foldseek_num_hits` is the number of data
lines, assigned after the loop (so it stays `0` when a float conversion
raised mid-loop). -/

/-- The initial metrics dict of `parse_foldseek_summary`. -/
def foldseekInit : MetricMap :=
  [("foldseek_top_hit", .null), ("foldseek_top_evalue", .null),
   ("foldseek_top_bits", .null), ("foldseek_num_hits", .num 0)]

/-- The body of the `try` block, over the file's lines. -/
def foldseekBody (lines : List String) (m : MetricMap) : MetricMap × Option String :=
  match lines with
  | [] => (m, some "StopIteration")
  | _header :: rest =>
      match rest with
      | [] => (Dict.set m "foldseek_num_hits" (.num 0), none)
      | first :: _ =>
          let fields := pySplitChar '\t' (pyStrip first)
          if fields.length ≥ 12 then
            let m1 := Dict.set m "foldseek_top_hit" (.str (fields.getD 1 ""))
            match pyFloat (fields.getD 10 "") with
            | .error e => (m1, some e)
            | .ok ev =>
                let m2 := Dict.set m1 "foldseek_top_evalue" (.num ev)
                match pyFloat (fields.getD 11 "") with
                | .error e => (m2, some e)
                | .ok bits =>
                    (Dict.set (Dict.set m2 "foldseek_top_bits" (.num bits))
                      "foldseek_num_hits" (.num (rest.length : ℚ)), none)
          else (Dict.set m "foldseek_num_hits" (.num (rest.length : ℚ)), none)

/-- The warning printed by `parse_foldseek_summary` on a caught exception. -/
def foldseekWarn (e : String) : String :=
  "Warning: Could not parse Foldseek TSV: " ++ e

/-- The function `parse_foldseek_summary`: the outer `Except` is the exception channel of
the Python function. -/
def parse_foldseek_summary (input : FileInput (List String)) :
    Except String (MetricMap × List String) :=
  match input with
  | none => .ok (foldseekInit, [])
  | some (.error e) => .ok (foldseekInit, [foldseekWarn e])
  | some (.ok lines) =>
      match foldseekBody lines foldseekInit with
      | (m, none) => .ok (m, [])
      | (m, some e) => .ok (m, [foldseekWarn e])

/-! ## The artifact locator (`glob.glob` call sites, lines 496, 566–567, 596–597, 626–627)

`glob.glob` is modelled per the Python documentation: it returns the matching
paths "in arbitrary order", i.e. in the order of the underlying OS directory
enumeration, which is passed in here as `listing`; `glob` performs no
sorting. The pattern test itself is passed as a predicate. -/

/-- The set of paths of `listing` matching the pattern, in listing order. -/
def glob_glob (pat : String → Bool) (listing : List String) : List String :=
  listing.filter pat

/-- Lexicographic comparison of character lists by code point. -/
def charListLe : List Char → List Char → Bool
  | [], _ => true
  | _ :: _, [] => false
  | a :: xs, b :: ys => if a = b then charListLe xs ys else decide (a.val < b.val)

/-- Python `<=` on strings (code-point lexicographic). -/
def pathLe (a b : String) : Bool := charListLe a.data b.data

/-! ## The aggregation state and STEP 7 flattening (lines 411, 656–693)

`all_metrics[design_id]` holds the `'boltzgen'` design-level dict, the
`'_model_ids'` list (stems of the budget-design CIF files), and one metric
dict per model id (every other key). The flattening pass iterates the
designs, skips `'boltzgen'` and `'_model_ids'` (the latter is also not a
dict), and emits one entry per per-model dict under the key
`f"{design_id}_{key}"`. -/

/-- The per-design slot of the aggregation dict. -/
structure DesignData where
  boltzgen : MetricMap
  model_ids : List String
  models : List (String × MetricMap)
deriving DecidableEq

/-- One flattened entry: a fresh dict updated first with the Boltzgen
design-level metrics, then with the model-level metrics, then given its
`design_id`/`model_id` fields (lines 675–685). -/
def flatEntry (d : String) (bz : MetricMap) (mk : String) (mm : MetricMap) : MetricMap :=
  Dict.set (Dict.set (Dict.update (Dict.update [] bz) mm) "design_id" (.str d))
    "model_id" (.str mk)

/-- STEP 7 of `aggregate_metrics_from_directories`: flatten the nested
aggregation dict into one entry per (design, model) pair that has a
model-level dict, keyed `f"{design_id}_{key}"`. -/
def flatten_metrics (all_metrics : List (String × DesignData)) : List (String × MetricMap) :=
  all_metrics.foldl
    (fun acc p =>
      p.2.models.foldl
        (fun acc2 mp => Dict.set acc2 (p.1 ++ "_" ++ mp.1) (flatEntry p.1 p.2.boltzgen mp.1 mp.2))
        acc)
    []

/-- The `f"{design_id}_{key}"` keys produced by the flattening pass, in
iteration order. -/
def fullIds (all_metrics : List (String × DesignData)) : List String :=
  all_metrics.flatMap fun p => p.2.models.map fun mp => p.1 ++ "_" ++ mp.1

/-- The flattened entries as a flat list in iteration order (the flattening
fold produces exactly these when the full ids are distinct). -/
def flatEntries (all_metrics : List (String × DesignData)) : List (String × MetricMap) :=
  all_metrics.flatMap fun p =>
    p.2.models.map fun mp => (p.1 ++ "_" ++ mp.1, flatEntry p.1 p.2.boltzgen mp.1 mp.2)

/-- Modelled from the spec: the distinct `(design_id, model_id)` identities
observed across all parsed artifacts, as recorded in the aggregation state —
a model id is observed either through a model-level metric dict or through
the `_model_ids` listing of budget-design structure files. -/
def observedIdentities (all_metrics : List (String × DesignData)) : List (String × String) :=
  (all_metrics.flatMap fun p =>
    (p.2.model_ids.map fun m => (p.1, m)) ++ p.2.models.map fun mp => (p.1, mp.1)).dedup

/-! ## `calculate_composite_score` (lines 696–762) -/

/-- The default weight table built when `weights is None` (lines 714–737). -/
def defaultWeights : List (String × ℚ) :=
  [("aggregate_plddt", 0.15), ("aggregate_ptm", 1.0), ("aggregate_iptm", 1.0),
   ("ipsae_score", -2.0),
   ("predicted_binding_affinity", -0.5), ("buried_surface_area", 0.001),
   ("num_interface_contacts", 0.05),
   ("mpnn_score", -0.5), ("mpnn_seq_recovery", 0.5),
   ("protenix_plddt", 0.01), ("protenix_ptm", 0.5), ("protenix_iptm", 0.5)]

/-- Python `float(v)` on a stored metric value: numbers convert to
themselves, strings go through the literal parser (`ValueError` if
malformed), dicts raise `TypeError`. (The `None` case is unreachable in the
scoring loop, which tests `is not None` first.) -/
def pyFloatOfValue : MetricValue → Except String ℚ
  | .num q => .ok q
  | .str s => pyFloat s
  | .null => .error "TypeError: float() argument cannot be None"
  | .dictV _ => .error "TypeError: float() argument cannot be a dict"

/-- The running state of the scoring loop. -/
structure ScoreAcc where
  score : ℚ
  count : ℕ
  comps : List (String × ℚ)
deriving DecidableEq

/-- One iteration of the scoring loop: a weighted metric contributes
`weight * value` when it is present, non-`None`, and converts to float;
`ValueError`/`TypeError` are caught with `continue`. -/
def scoreStep (metrics : MetricMap) (acc : ScoreAcc) (mw : String × ℚ) : ScoreAcc :=
  match Dict.lookup metrics mw.1 with
  | some v =>
      if v = .null then acc
      else
        match pyFloatOfValue v with
        | .ok x =>
            { score := acc.score + mw.2 * x, count := acc.count + 1,
              comps := Dict.set acc.comps mw.1 (mw.2 * x) }
        | .error _ => acc
  | none => acc

/-- The function `calculate_composite_score`: returns the composite score and the metrics
dict after its in-place `_score_components` / `_metrics_used` writes. -/
def calculate_composite_score (metrics : MetricMap)
    (weightsOpt : Option (List (String × ℚ))) : ℚ × MetricMap :=
  let weights := weightsOpt.getD defaultWeights
  let acc := weights.foldl (scoreStep metrics) { score := 0, count := 0, comps := [] }
  let score := if acc.count > 0 then acc.score / (acc.count : ℚ) else acc.score
  let m1 := Dict.set metrics "_score_components" (.dictV acc.comps)
  let m2 := Dict.set m1 "_metrics_used" (.num (acc.count : ℚ))
  (score, m2)

/-! ## `rank_designs` (lines 765–786) -/

/-- One entry of the ranked list: `(design_id, metrics, composite_score)`. -/
abbrev RankedEntry := String × MetricMap × ℚ

/-- The `ranked` list before the sort: every candidate scored, with
`composite_score` written into its (shared) metrics dict. -/
def rank_designs_unsorted (all_metrics : List (String × MetricMap))
    (weightsOpt : Option (List (String × ℚ))) : List RankedEntry :=
  all_metrics.map fun p =>
    let r := calculate_composite_score p.2 weightsOpt
    (p.1, Dict.set r.2 "composite_score" (.num r.1), r.1)

/-- Stable insertion for the descending sort: an element of earlier input
position goes in front of every later element whose score is not larger. -/
def insertRanked (x : RankedEntry) : List RankedEntry → List RankedEntry
  | [] => [x]
  | y :: l => if y.2.2 ≤ x.2.2 then x :: y :: l else y :: insertRanked x l

/-- The stable descending sort by composite score. Python's
`list.sort(key=lambda x: x[2], reverse=True)` is a stable sort under the
reversed comparison; a stable descending sort of a list is unique, so this
insertion sort computes the same list. -/
def sortRanked : List RankedEntry → List RankedEntry
  | [] => []
  | x :: l => insertRanked x (sortRanked l)

/-- The function `rank_designs`: score every candidate, then sort by composite score
descending (stable). -/
def rank_designs (all_metrics : List (String × MetricMap))
    (weightsOpt : Option (List (String × ℚ))) : List RankedEntry :=
  sortRanked (rank_designs_unsorted all_metrics weightsOpt)

/-! ## `write_summary_report` (lines 789–865)

File I/O is out of scope (§1 of the spec); the writer is modelled as the
document it emits: the CSV header and its rows. Decimal rendering of cell
values is abstracted as the canonical rational rendering. -/

/-- The emitted CSV document. -/
structure CsvDoc where
  header : List String
  rows : List (List String)
deriving DecidableEq

/-- The `priority_columns` list of `write_summary_report` (lines 811–850). -/
def priority_columns : List String :=
  ["design_id", "model_id", "rank", "composite_score", "_metrics_used",
   "aggregate_plddt", "aggregate_ptm", "aggregate_iptm", "aggregate_pae_interaction",
   "mpnn_score", "mpnn_global_score", "mpnn_seq_recovery", "mpnn_num_sequences",
   "protenix_plddt", "protenix_ptm", "protenix_iptm", "protenix_ranking_score",
   "ipsae_score",
   "predicted_binding_affinity", "predicted_kd", "buried_surface_area",
   "num_interface_contacts",
   "foldseek_top_hit", "foldseek_top_evalue", "foldseek_top_bits", "foldseek_num_hits"]

/-- Stable insertion for the lexicographic sort of the remaining columns. -/
def insertStr (x : String) : List String → List String
  | [] => [x]
  | y :: l => if pathLe x y then x :: y :: l else y :: insertStr x l

/-- Python `sorted(...)` on strings. -/
def sortStrings : List String → List String
  | [] => []
  | x :: l => insertStr x (sortStrings l)

/-- One CSV cell as written by `csv.DictWriter`: missing keys get the
`restval` `''`, `None` is written as the empty string, strings verbatim,
numbers by their (abstracted) decimal rendering. -/
def csvCell : Option MetricValue → String
  | none => ""
  | some .null => ""
  | some (.num q) => toString q
  | some (.str s) => s
  | some (.dictV _) => "dict"

/-- The function `write_summary_report`: on an empty ranked list, a header-only CSV with
the three fixed columns; otherwise the priority columns followed by the
remaining keys sorted lexically, one row per candidate with its 1-based
rank, extra dict keys ignored (`extrasaction='ignore'`). -/
def write_summary_report (ranked : List RankedEntry) : CsvDoc :=
  if ranked.isEmpty then
    { header := ["design_id", "rank", "composite_score"], rows := [] }
  else
    let allKeys := (ranked.flatMap fun e => Dict.keys e.2.1).dedup
    let other := sortStrings (allKeys.filter fun k => !priority_columns.contains k)
    let fieldnames := priority_columns ++ other
    { header := fieldnames,
      rows := (ranked.enum.map fun p =>
        let rowDict := Dict.update
          [("design_id", MetricValue.str p.2.1), ("rank", MetricValue.num ((p.1 + 1 : ℕ) : ℚ))]
          p.2.2.1
        fieldnames.map fun c => csvCell (Dict.lookup rowDict c)) }

/-! ## `write_markdown_report` (lines 868–1080)

Modelled as the list of chunks written to the file, in order. Python's
fixed-precision float formatting `f"{v:.kf}"` is modelled by `fmtQ k` (exact
rational rounding; the rounding mode of the final digit is immaterial to
every claim). -/

/-- Left-pad a digit string with zeros to `width`. -/
def padZeros (s : String) (width : Nat) : String :=
  ⟨List.replicate (width - s.length) '0'⟩ ++ s

/-- Fixed-precision decimal rendering of a rational (Python `f"{q:.kf}"`). -/
def fmtQ (prec : Nat) (q : ℚ) : String :=
  let n : ℤ := Int.floor (q * (10 : ℚ) ^ prec + 1/2)
  let sign := if n < 0 then "-" else ""
  let a := n.natAbs
  if prec = 0 then sign ++ toString a
  else sign ++ toString (a / 10 ^ prec) ++ "." ++ padZeros (toString (a % 10 ^ prec)) prec

/-- Python truthiness of a looked-up metric value (`if metrics.get(k):`):
falsy on a missing key, `None`, `0`, `''` and an empty dict. -/
def truthyMV : Option MetricValue → Bool
  | none => false
  | some .null => false
  | some (.num q) => decide (q ≠ 0)
  | some (.str s) => decide (s ≠ "")
  | some (.dictV l) => decide (l ≠ [])

/-- The numeric value of a looked-up metric (the report formats only metrics
that the parsers store as numbers). -/
def numMV : Option MetricValue → ℚ
  | some (.num q) => q
  | _ => 0

/-- Python `f"{metrics.get(k, 0):.pf}" if metrics.get(k) else "N/A"`. -/
def mdFmtOr (prec : Nat) (v : Option MetricValue) : String :=
  if truthyMV v then fmtQ prec (numMV v) else "N/A"

/-- Python `metrics.get(k, dflt)` where the stored value, if present, is a string
(the identifier fields are always stored as strings by the flattening
step). -/
def getStrOr (m : MetricMap) (k dflt : String) : String :=
  match Dict.lookup m k with
  | some (.str s) => s
  | _ => dflt

/-- The values of metric `k` over all candidates that have it non-`None`
(the three summary metrics are stored as numbers or `None` by their
parsers). -/
def collectMetric (ranked : List RankedEntry) (k : String) : List ℚ :=
  ranked.filterMap fun e =>
    match Dict.lookup e.2.1 k with
    | some (MetricValue.num q) => some q
    | _ => none

/-- Python `min` over a nonempty list. -/
def listMin : List ℚ → ℚ
  | [] => 0
  | x :: xs => xs.foldl min x

/-- Python `max` over a nonempty list. -/
def listMax : List ℚ → ℚ
  | [] => 0
  | x :: xs => xs.foldl max x

/-- Mean of a list of rationals. -/
def listMean (l : List ℚ) : ℚ := l.sum / (l.length : ℚ)

/-- The `## Summary Statistics` lines (888–902). -/
def mdStatLines (ranked : List RankedEntry) : List String :=
  let allIpsae := collectMetric ranked "ipsae_score"
  let allAffinity := collectMetric ranked "predicted_binding_affinity"
  let allBsa := collectMetric ranked "buried_surface_area"
  (if allIpsae ≠ [] then
    ["- **IPSAE Scores:** " ++ toString allIpsae.length ++ " designs\n",
     "  - Min: " ++ fmtQ 3 (listMin allIpsae) ++ ", Max: " ++ fmtQ 3 (listMax allIpsae) ++
       ", Mean: " ++ fmtQ 3 (listMean allIpsae) ++ "\n"]
   else []) ++
  (if allAffinity ≠ [] then
    ["- **Binding Affinity (ΔG):** " ++ toString allAffinity.length ++ " designs\n",
     "  - Min: " ++ fmtQ 3 (listMin allAffinity) ++ " kcal/mol, Max: " ++
       fmtQ 3 (listMax allAffinity) ++ " kcal/mol, Mean: " ++
       fmtQ 3 (listMean allAffinity) ++ " kcal/mol\n"]
   else []) ++
  (if allBsa ≠ [] then
    ["- **Buried Surface Area:** " ++ toString allBsa.length ++ " designs\n",
     "  - Min: " ++ fmtQ 1 (listMin allBsa) ++ " Ų, Max: " ++ fmtQ 1 (listMax allBsa) ++
       " Ų, Mean: " ++ fmtQ 1 (listMean allBsa) ++ " Ų\n"]
   else [])

/-- Python `design_id[:20] + "..." if len(design_id) > 23 else design_id` and its
model-id analogue. -/
def truncateId (s : String) (takeN longerThan : Nat) : String :=
  if s.length > longerThan then String.mk (s.data.take takeN) ++ "..." else s

/-- One row of the top-N table (lines 911–928). -/
def mdTableRow (rank : Nat) (e : RankedEntry) : String :=
  let m := e.2.1
  let design_id := getStrOr m "design_id" e.1
  let model_id := getStrOr m "model_id" "-"
  "| " ++ toString rank ++ " | " ++ truncateId design_id 20 23 ++ " | " ++
    truncateId model_id 15 18 ++ " | " ++ fmtQ 3 e.2.2 ++ " | " ++
    mdFmtOr 1 (Dict.lookup m "aggregate_plddt") ++ " | " ++
    mdFmtOr 3 (Dict.lookup m "aggregate_iptm") ++ " | " ++
    mdFmtOr 2 (Dict.lookup m "ipsae_score") ++ " | " ++
    mdFmtOr 1 (Dict.lookup m "predicted_binding_affinity") ++ " | " ++
    mdFmtOr 2 (Dict.lookup m "mpnn_score") ++ " | " ++
    mdFmtOr 1 (Dict.lookup m "protenix_plddt") ++ " |\n"

/-- The static `## Interpretation Guide` section (lines 930–965). -/
def mdInterpGuide : List String :=
  ["\n## Interpretation Guide\n\n", "### Overall Quality\n",
   "- **Composite Score**: Weighted combination of all metrics (higher is better)\n",
   "- **Metrics Used**: Number of metrics available for this design (more is better)\n\n",
   "### Boltzgen Original Design Quality\n",
   "- **Boltz pLDDT**: Per-residue confidence score, 0-100 (>80 is good, >90 is excellent)\n",
   "- **Boltz pTM**: Predicted TM-score, 0-1 (>0.5 is good, >0.8 is excellent)\n",
   "- **Boltz ipTM**: Interface predicted TM-score, 0-1 (>0.5 is good, >0.8 is excellent)\n",
   "- **Boltz PAE Interaction**: Predicted aligned error at interface (lower is better)\n\n",
   "### ProteinMPNN Sequence Optimization\n",
   "- **MPNN Score**: Negative log probability of sequence (lower is better, typically 1-5)\n",
   "- **MPNN Global Score**: Overall sequence likelihood (lower is better)\n",
   "- **MPNN Seq Recovery**: Fraction of original residues kept, 0-1 (indicates design novelty)\n\n",
   "### Protenix Refolding Validation\n",
   "- **Protenix pLDDT**: Confidence after refolding with MPNN sequence, 0-100\n",
   "- **Protenix pTM**: Predicted TM-score after refolding, 0-1\n",
   "- **Protenix ipTM**: Interface quality after refolding, 0-1\n",
   "- Good Protenix scores validate that MPNN sequences fold correctly\n\n",
   "### Interface Quality\n",
   "- **IPSAE**: Interface PAE score (lower is better, <5 excellent, <10 good)\n",
   "- Measures confidence in interface residue positioning\n\n",
   "### Binding Affinity (PRODIGY)\n",
   "- **ΔG**: Predicted binding free energy in kcal/mol (more negative is stronger)\n",
   "- **Kd**: Predicted dissociation constant in M (lower indicates tighter binding)\n",
   "- **BSA**: Buried surface area in Ų (larger generally indicates more interaction)\n",
   "- **Contacts**: Number of interface residue contacts\n\n",
   "### Structural Similarity (Foldseek)\n",
   "- **Top Hit**: Most similar structure in database\n",
   "- **E-value**: Statistical significance (lower is more significant)\n",
   "- **Bits**: Alignment score (higher is better)\n\n"]

/-- The threshold-based quality assessment of the top design (lines
980–1058): the accumulated (recommendations, warnings) pair. -/
def mdAssess (bm : MetricMap) : List String × List String :=
  let rw : List String × List String := ([], [])
  let rw :=
    if truthyMV (Dict.lookup bm "aggregate_plddt") then
      let plddt := numMV (Dict.lookup bm "aggregate_plddt")
      if plddt > 90 then (rw.1 ++ ["✅ Excellent Boltzgen pLDDT: " ++ fmtQ 1 plddt], rw.2)
      else if plddt > 80 then (rw.1 ++ ["✅ Good Boltzgen pLDDT: " ++ fmtQ 1 plddt], rw.2)
      else (rw.1, rw.2 ++ ["⚠️  Moderate Boltzgen pLDDT: " ++ fmtQ 1 plddt])
    else rw
  let rw :=
    if truthyMV (Dict.lookup bm "aggregate_iptm") then
      let iptm := numMV (Dict.lookup bm "aggregate_iptm")
      if iptm > 0.8 then
        (rw.1 ++ ["✅ Excellent Boltzgen interface quality (ipTM: " ++ fmtQ 3 iptm ++ ")"], rw.2)
      else if iptm > 0.5 then
        (rw.1 ++ ["✅ Good Boltzgen interface quality (ipTM: " ++ fmtQ 3 iptm ++ ")"], rw.2)
      else (rw.1, rw.2 ++ ["⚠️  Moderate Boltzgen interface quality (ipTM: " ++ fmtQ 3 iptm ++ ")"])
    else rw
  let rw :=
    if truthyMV (Dict.lookup bm "ipsae_score") then
      let ipsae := numMV (Dict.lookup bm "ipsae_score")
      if ipsae < 5 then
        (rw.1 ++ ["✅ Excellent interface confidence (IPSAE: " ++ fmtQ 2 ipsae ++ ")"], rw.2)
      else if ipsae < 10 then
        (rw.1 ++ ["✅ Good interface confidence (IPSAE: " ++ fmtQ 2 ipsae ++ ")"], rw.2)
      else (rw.1, rw.2 ++ ["⚠️  Moderate interface confidence (IPSAE: " ++ fmtQ 2 ipsae ++ ")"])
    else rw
  let rw :=
    if truthyMV (Dict.lookup bm "mpnn_score") then
      let mpnn := numMV (Dict.lookup bm "mpnn_score")
      if mpnn < 2 then
        (rw.1 ++ ["✅ Excellent MPNN sequence optimization (score: " ++ fmtQ 2 mpnn ++ ")"], rw.2)
      else if mpnn < 4 then
        (rw.1 ++ ["✅ Good MPNN sequence optimization (score: " ++ fmtQ 2 mpnn ++ ")"], rw.2)
      else (rw.1, rw.2 ++ ["⚠️  Moderate MPNN sequence optimization (score: " ++ fmtQ 2 mpnn ++ ")"])
    else rw
  let rw :=
    if truthyMV (Dict.lookup bm "mpnn_seq_recovery") then
      let recovery := numMV (Dict.lookup bm "mpnn_seq_recovery")
      if recovery < 0.3 then
        (rw.1 ++ ["✅ Highly novel sequence (recovery: " ++ fmtQ 2 recovery ++ ")"], rw.2)
      else if recovery < 0.7 then
        (rw.1 ++ ["✅ Moderately novel sequence (recovery: " ++ fmtQ 2 recovery ++ ")"], rw.2)
      else (rw.1 ++ ["ℹ️  Conservative sequence design (recovery: " ++ fmtQ 2 recovery ++ ")"], rw.2)
    else rw
  let rw :=
    if truthyMV (Dict.lookup bm "protenix_plddt") then
      let pp := numMV (Dict.lookup bm "protenix_plddt")
      if pp > 85 then
        (rw.1 ++ ["✅ MPNN sequence folds well (Protenix pLDDT: " ++ fmtQ 1 pp ++ ")"], rw.2)
      else if pp > 70 then
        (rw.1 ++ ["✅ MPNN sequence folds adequately (Protenix pLDDT: " ++ fmtQ 1 pp ++ ")"], rw.2)
      else (rw.1, rw.2 ++ ["⚠️  MPNN sequence may not fold well (Protenix pLDDT: " ++ fmtQ 1 pp ++ ")"])
    else rw
  let rw :=
    if truthyMV (Dict.lookup bm "predicted_binding_affinity") then
      let affinity := numMV (Dict.lookup bm "predicted_binding_affinity")
      if affinity < -10 then
        (rw.1 ++ ["✅ Strong predicted binding (ΔG: " ++ fmtQ 1 affinity ++ " kcal/mol)"], rw.2)
      else if affinity < -5 then
        (rw.1 ++ ["✅ Moderate predicted binding (ΔG: " ++ fmtQ 1 affinity ++ " kcal/mol)"], rw.2)
      else (rw.1, rw.2 ++ ["⚠️  Weak predicted binding (ΔG: " ++ fmtQ 1 affinity ++ " kcal/mol)"])
    else rw
  if truthyMV (Dict.lookup bm "buried_surface_area") then
    let bsa := numMV (Dict.lookup bm "buried_surface_area")
    if bsa > 1500 then (rw.1 ++ ["✅ Large interface (BSA: " ++ fmtQ 0 bsa ++ " Ų)"], rw.2)
    else if bsa > 800 then (rw.1 ++ ["✅ Adequate interface (BSA: " ++ fmtQ 0 bsa ++ " Ų)"], rw.2)
    else (rw.1, rw.2 ++ ["⚠️  Small interface (BSA: " ++ fmtQ 0 bsa ++ " Ų)"])
  else rw

/-- The `## Recommendations` section for a nonempty ranked list
(lines 969–1078). -/
def mdRecommendations (best : RankedEntry) : List String :=
  let bm := best.2.1
  let rw := mdAssess bm
  ["### Top Design: `" ++ best.1 ++ "`\n\n",
   "**Composite Score:** " ++ fmtQ 3 best.2.2 ++ " (based on " ++
     toString (numMV (Dict.lookup bm "_metrics_used")) ++ " metrics)\n\n",
   "**Quality Assessment:**\n\n"] ++
  (if rw.1 ≠ [] then
    ["**Strengths:**\n"] ++ rw.1.map (fun r => "- " ++ r ++ "\n") ++ ["\n"]
   else []) ++
  (if rw.2 ≠ [] then
    ["**Considerations:**\n"] ++ rw.2.map (fun w => "- " ++ w ++ "\n") ++ ["\n"]
   else []) ++
  ["### Next Steps\n\n",
   "1. **Structural Review**: Examine PDB/CIF structures for the top 3-5 designs\n",
   "2. **Sequence Analysis**: Review ProteinMPNN optimized sequences and compare to originals\n",
   "3. **Validation**: Consider additional computational validation (MD simulations, docking)\n",
   "4. **Experimental Testing**: Prioritize top designs for experimental characterization\n",
   "5. **Detailed Comparison**: Use the full CSV for in-depth comparison of all designs\n"]

/-- The function `write_markdown_report`: the chunks written to the report file, in
order. On an empty ranked list the function writes the two header chunks and
`No designs found.` and returns. -/
def write_markdown_report (ranked : List RankedEntry) (top_n : Nat) : List String :=
  let hdr := ["# Protein Design Consolidation Report\n\n",
              "**Total Designs Analyzed:** " ++ toString ranked.length ++ "\n\n"]
  if ranked.isEmpty then hdr ++ ["No designs found.\n"]
  else
    hdr ++ ["## Summary Statistics\n\n"] ++ mdStatLines ranked ++
    ["\n## Top " ++ toString top_n ++ " Designs (by Composite Score)\n\n",
     "| Rank | Design | Model | Score | Boltz pLDDT | Boltz ipTM | IPSAE | ΔG | MPNN Score | Protenix pLDDT |\n",
     "|------|--------|-------|-------|-------------|------------|-------|----|-----------|-----------------|\n"] ++
    ((ranked.take top_n).enum.map fun p => mdTableRow (p.1 + 1) p.2) ++
    mdInterpGuide ++ ["## Recommendations\n\n"] ++
    (match ranked with
     | [] => []
     | best :: _ => mdRecommendations best)

/-! ## Specification-side definitions

These follow the spec's wording, to be compared against the implementation
definitions above. -/

/-- From the spec of the composite scorer: the weighted metrics of the
candidate that are present with a (non-null, numeric) value, in weight-table
order, as `(metric, weight, value)`. -/
def contributingMetrics (m : MetricMap) (weights : List (String × ℚ)) :
    List (String × ℚ × ℚ) :=
  weights.filterMap fun mw =>
    match Dict.lookup m mw.1 with
    | some (MetricValue.num v) => some (mw.1, mw.2, v)
    | _ => none

/-- From the spec: the accumulated `weight * value` over the contributing
metrics. -/
def specWeightedSum (m : MetricMap) (weights : List (String × ℚ)) : ℚ :=
  ((contributingMetrics m weights).map fun t => t.2.1 * t.2.2).sum

/-- From the spec: the count of metrics that actually contributed. -/
def specContribCount (m : MetricMap) (weights : List (String × ℚ)) : ℕ :=
  (contributingMetrics m weights).length

/-- A looked-up metric value is absent, `None`, or numeric (the domain on
which the spec's description of the scorer is phrased). -/
def numOrAbsent : Option MetricValue → Bool
  | none => true
  | some .null => true
  | some (MetricValue.num _) => true
  | some (MetricValue.str _) => false
  | some (MetricValue.dictV _) => false

/-- The contributing-metric count as computed by the implementation's
scoring loop (the value written to `_metrics_used`). -/
def contribCountImpl (m : MetricMap) (weightsOpt : Option (List (String × ℚ))) : ℕ :=
  ((weightsOpt.getD defaultWeights).foldl (scoreStep m) { score := 0, count := 0, comps := [] }).count

/-- The component-score dict as computed by the implementation's scoring
loop (the value written to `_score_components`). -/
def scoreCompsImpl (m : MetricMap) (weightsOpt : Option (List (String × ℚ))) :
    List (String × ℚ) :=
  ((weightsOpt.getD defaultWeights).foldl (scoreStep m) { score := 0, count := 0, comps := [] }).comps

/-! ## Error-channel observables for the parser theorems -/

/-- Whether the `try` body of `parse_prodigy_csv` raised. -/
def prodigyErred : FileInput (List CsvRow) → Bool
  | none => false
  | some (.error _) => true
  | some (.ok rows) => (prodigyBody rows prodigyInit).2.isSome

/-- Whether the `try` body of `parse_proteinmpnn_scores` raised. -/
def mpnnErred : FileInput (List String) → Bool
  | none => false
  | some (.error _) => true
  | some (.ok lines) => !(mpnnBody lines).isOk

/-- Whether the `try` body of `parse_foldseek_summary` raised. -/
def foldseekErred : FileInput (List String) → Bool
  | none => false
  | some (.error _) => true
  | some (.ok lines) => (foldseekBody lines foldseekInit).2.isSome

/-- The number of warnings a parser printed. -/
def warnCount : Except String (MetricMap × List String) → ℕ
  | .ok p => p.2.length
  | .error _ => 0

/-! ## Concrete inputs for witnesses and counterexamples -/

/-- The aggregation state after STEP 1 for a run in which one Boltzgen
design directory was found (aggregate CSV plus one budget-design CIF listed
in `_model_ids`) but no model-level artifact was produced by any tool. -/
def c1Input : List (String × DesignData) :=
  [("design_a",
    { boltzgen := [("aggregate_plddt", MetricValue.num 90)],
      model_ids := ["model_0"], models := [] })]

/-- A two-design aggregation state with model-level dicts, for the amended
count theorem and the flattening witness. -/
def c8Input : List (String × DesignData) :=
  [("design_a",
    { boltzgen := [("aggregate_plddt", MetricValue.num 90), ("aggregate_ptm", MetricValue.num 1)],
      model_ids := ["model_0"],
      models := [("model_0", [("ipsae_score", MetricValue.num 4), ("aggregate_ptm", MetricValue.num 2)])] }),
   ("design_b",
    { boltzgen := [],
      model_ids := [],
      models := [("model_1", [("mpnn_score", MetricValue.num 3)])] })]

/-- A candidate metric dict for the scorer witnesses. -/
def wMetrics : MetricMap :=
  [("ipsae_score", MetricValue.num 4), ("foldseek_top_hit", MetricValue.str "1abc")]

/-- A weight table for the scorer witnesses. -/
def wWeights : List (String × ℚ) :=
  [("ipsae_score", -2.0), ("mpnn_score", -0.5)]

/-- A directory listing in the order the OS happens to enumerate it (the
two IPSAE score files of two designs, deeper path first). -/
def c7Listing : List String :=
  ["design_b/ipsae_scores/m1_10_10.txt", "design_a/ipsae_scores/m0_10_10.txt"]

/-- The same snapshot enumerated in the opposite order. -/
def c7ListingAlt : List String :=
  ["design_a/ipsae_scores/m0_10_10.txt", "design_b/ipsae_scores/m1_10_10.txt"]

/-- The IPSAE pattern test (`*/ipsae_scores/*_10_10.txt`) on these paths. -/
def c7Pat (p : String) : Bool := pyContains p "_10_10.txt"

/-- The FASTA lines of the C9 scenario: three records with headers carrying
`score=2.10`, `score=2.30`, `score=1.90`. -/
def c9Lines : List String :=
  [">T=0.1, sample=1, score=2.10, global_score=2.50, seq_recovery=0.80", "MAAAK",
   ">T=0.1, sample=2, score=2.30, global_score=2.60, seq_recovery=0.70", "MAAAR",
   ">T=0.1, sample=3, score=1.90, global_score=2.40, seq_recovery=0.75", "MAAAE"]

/-! # Theorems -/

/-! ## Association-list dict lemmas -/

theorem Dict.lookup_nil (k : String) : Dict.lookup ([] : List (String × α)) k = none := rfl

theorem Dict.lookup_cons (p : String × α) (t : List (String × α)) (k : String) :
    Dict.lookup (p :: t) k = if p.1 = k then some p.2 else Dict.lookup t k := by
  by_cases h : p.1 = k
  · rw [Dict.lookup, List.find?_cons_of_pos _ (by simpa using h), if_pos h]
  · rw [Dict.lookup, List.find?_cons_of_neg _ (by simpa using h), if_neg h, Dict.lookup]

theorem Dict.hasKey_iff (d : List (String × α)) (k : String) :
    Dict.hasKey d k = true ↔ k ∈ Dict.keys d := by
  simp only [Dict.hasKey, Dict.keys, List.any_eq_true, List.mem_map, beq_iff_eq]

theorem Dict.set_fresh (d : List (String × α)) (k : String) (v : α)
    (h : k ∉ Dict.keys d) : Dict.set d k v = d ++ [(k, v)] := by
  rw [Dict.set, if_neg]
  intro hh
  exact h ((Dict.hasKey_iff d k).mp hh)

theorem Dict.lookup_eq_none (d : List (String × α)) (k : String)
    (h : k ∉ Dict.keys d) : Dict.lookup d k = none := by
  induction d with
  | nil => rfl
  | cons p t ih =>
      simp only [Dict.keys, List.map_cons, List.mem_cons, not_or] at h
      rw [Dict.lookup_cons, if_neg (fun he => h.1 he.symm)]
      exact ih (by simpa [Dict.keys] using h.2)

theorem Dict.lookup_append (d1 d2 : List (String × α)) (k : String) :
    Dict.lookup (d1 ++ d2) k = (Dict.lookup d1 k).or (Dict.lookup d2 k) := by
  induction d1 with
  | nil => simp [Dict.lookup_nil]
  | cons p t ih =>
      rw [List.cons_append, Dict.lookup_cons, Dict.lookup_cons]
      by_cases h : p.1 = k
      · simp [h]
      · simp [h, ih]

theorem Dict.lookup_replace_self (d : List (String × α)) (k : String) (v : α)
    (h : k ∈ Dict.keys d) :
    Dict.lookup (d.map fun p => if p.1 == k then (k, v) else p) k = some v := by
  induction d with
  | nil => simp [Dict.keys] at h
  | cons p t ih =>
      rw [List.map_cons]
      by_cases hp : p.1 = k
      · rw [if_pos (by simpa using hp), Dict.lookup_cons, if_pos rfl]
      · rw [if_neg (by simpa using hp), Dict.lookup_cons, if_neg hp]
        apply ih
        simp only [Dict.keys, List.map_cons, List.mem_cons] at h
        rcases h with h | h
        · exact absurd h.symm hp
        · simpa [Dict.keys] using h

theorem Dict.lookup_replace_ne (d : List (String × α)) (k : String) (v : α)
    (k' : String) (h : k' ≠ k) :
    Dict.lookup (d.map fun p => if p.1 == k then (k, v) else p) k' = Dict.lookup d k' := by
  induction d with
  | nil => rfl
  | cons p t ih =>
      rw [List.map_cons]
      by_cases hp : p.1 = k
      · rw [if_pos (by simpa using hp), Dict.lookup_cons, Dict.lookup_cons,
          if_neg (fun he => h he.symm), if_neg (fun he => h (hp.symm.trans he).symm)]
        exact ih
      · rw [if_neg (by simpa using hp), Dict.lookup_cons, Dict.lookup_cons]
        split
        · rfl
        · exact ih

theorem Dict.lookup_set_self (d : List (String × α)) (k : String) (v : α) :
    Dict.lookup (Dict.set d k v) k = some v := by
  rw [Dict.set]
  split
  · next hh => exact Dict.lookup_replace_self d k v ((Dict.hasKey_iff d k).mp hh)
  · next hh =>
      rw [Dict.lookup_append,
        Dict.lookup_eq_none d k (fun hm => hh ((Dict.hasKey_iff d k).mpr hm))]
      simp [Dict.lookup_cons]

theorem Dict.lookup_set_ne (d : List (String × α)) (k : String) (v : α)
    (k' : String) (h : k' ≠ k) :
    Dict.lookup (Dict.set d k v) k' = Dict.lookup d k' := by
  rw [Dict.set]
  split
  · exact Dict.lookup_replace_ne d k v k' h
  · rw [Dict.lookup_append]
    have : Dict.lookup [(k, v)] k' = none := by
      rw [Dict.lookup_cons, if_neg (fun he => h he.symm), Dict.lookup_nil]
    rw [this]
    cases Dict.lookup d k' <;> rfl

theorem Dict.update_cons (d1 : List (String × α)) (p : String × α) (t : List (String × α)) :
    Dict.update d1 (p :: t) = Dict.update (Dict.set d1 p.1 p.2) t := rfl

theorem Dict.lookup_update (d1 d2 : List (String × α)) (k : String)
    (h : (Dict.keys d2).Nodup) :
    Dict.lookup (Dict.update d1 d2) k = (Dict.lookup d2 k).or (Dict.lookup d1 k) := by
  induction d2 generalizing d1 with
  | nil => simp [Dict.update, Dict.lookup_nil]
  | cons p t ih =>
      simp only [Dict.keys, List.map_cons, List.nodup_cons] at h
      rw [Dict.update_cons, ih _ (by simpa [Dict.keys] using h.2), Dict.lookup_cons]
      by_cases hk : p.1 = k
      · subst hk
        rw [Dict.lookup_eq_none t p.1 (by simpa [Dict.keys] using h.1), if_pos rfl,
          Dict.lookup_set_self]
        rfl
      · rw [if_neg hk, Dict.lookup_set_ne d1 p.1 p.2 k (fun he => hk he.symm)]

/-! ## Flattening lemmas -/

theorem Dict.lookup_of_mem (l : List (String × α)) (k : String) (v : α)
    (hm : (k, v) ∈ l) (h : (Dict.keys l).Nodup) : Dict.lookup l k = some v := by
  induction l with
  | nil => simp at hm
  | cons p t ih =>
      rw [Dict.lookup_cons]
      rcases List.mem_cons.mp hm with he | hm'
      · subst he; simp
      · have hk : p.1 ≠ k := by
          intro hpk
          have hmem : k ∈ Dict.keys t := List.mem_map.mpr ⟨(k, v), hm', rfl⟩
          simp only [Dict.keys, List.map_cons, List.nodup_cons] at h
          exact h.1 (hpk ▸ hmem)
        rw [if_neg hk]
        refine ih hm' ?_
        simp only [Dict.keys, List.map_cons, List.nodup_cons] at h
        exact h.2

theorem modelsFold_eq_append (d : String) (bz : MetricMap)
    (models : List (String × MetricMap)) (acc : List (String × MetricMap))
    (h : (Dict.keys acc ++ models.map fun mp => d ++ "_" ++ mp.1).Nodup) :
    models.foldl (fun acc2 mp => Dict.set acc2 (d ++ "_" ++ mp.1) (flatEntry d bz mp.1 mp.2)) acc
      = acc ++ models.map fun mp => (d ++ "_" ++ mp.1, flatEntry d bz mp.1 mp.2) := by
  induction models generalizing acc with
  | nil => simp
  | cons e t ih =>
      rw [List.foldl_cons]
      rw [List.map_cons] at h
      have hparts := List.nodup_append.mp h
      have hfresh : (d ++ "_" ++ e.1) ∉ Dict.keys acc := fun hm => hparts.2.2 hm (by simp)
      rw [Dict.set_fresh _ _ _ hfresh]
      have hnd : (Dict.keys (acc ++ [(d ++ "_" ++ e.1, flatEntry d bz e.1 e.2)])
          ++ t.map fun mp => d ++ "_" ++ mp.1).Nodup := by
        have hre : Dict.keys (acc ++ [(d ++ "_" ++ e.1, flatEntry d bz e.1 e.2)])
              ++ (t.map fun mp => d ++ "_" ++ mp.1)
            = Dict.keys acc ++ ((d ++ "_" ++ e.1) :: t.map fun mp => d ++ "_" ++ mp.1) := by
          simp [Dict.keys]
        rw [hre]
        exact h
      rw [ih _ hnd, List.append_assoc]
      simp

theorem flattenFold_eq (am : List (String × DesignData)) (acc : List (String × MetricMap))
    (h : (Dict.keys acc ++ fullIds am).Nodup) :
    am.foldl
      (fun acc p =>
        p.2.models.foldl
          (fun acc2 mp => Dict.set acc2 (p.1 ++ "_" ++ mp.1) (flatEntry p.1 p.2.boltzgen mp.1 mp.2))
          acc)
      acc = acc ++ flatEntries am := by
  induction am generalizing acc with
  | nil => simp [flatEntries, fullIds]
  | cons p t ih =>
      rw [List.foldl_cons]
      have hfull : fullIds (p :: t)
          = (p.2.models.map fun mp => p.1 ++ "_" ++ mp.1) ++ fullIds t := by
        simp [fullIds]
      rw [hfull] at h
      have hinner := modelsFold_eq_append p.1 p.2.boltzgen p.2.models acc
        (List.Nodup.sublist
          (by rw [← List.append_assoc]; exact List.sublist_append_left _ _) h)
      rw [hinner, ih]
      · have hfe : flatEntries (p :: t)
            = (p.2.models.map fun mp => (p.1 ++ "_" ++ mp.1, flatEntry p.1 p.2.boltzgen mp.1 mp.2))
              ++ flatEntries t := by
          simp [flatEntries]
        rw [hfe, List.append_assoc]
      · have hk2 : Dict.keys (acc ++ p.2.models.map fun mp =>
            (p.1 ++ "_" ++ mp.1, flatEntry p.1 p.2.boltzgen mp.1 mp.2))
            = Dict.keys acc ++ (p.2.models.map fun mp => p.1 ++ "_" ++ mp.1) := by
          simp [Dict.keys, List.map_map]
        rw [hk2, List.append_assoc]
        exact h

theorem flatten_metrics_eq (am : List (String × DesignData)) (h : (fullIds am).Nodup) :
    flatten_metrics am = flatEntries am := by
  have := flattenFold_eq am [] (by simpa [Dict.keys] using h)
  simpa [flatten_metrics] using this

theorem flatEntries_keys (am : List (String × DesignData)) :
    (flatEntries am).map Prod.fst = fullIds am := by
  simp [flatEntries, fullIds, List.map_flatMap, List.map_map, Function.comp_def]

theorem flatEntries_length (am : List (String × DesignData)) :
    (flatEntries am).length = (am.map fun p => p.2.models.length).sum := by
  simp [flatEntries, List.length_flatMap, Function.comp_def]

/-- Claim C1 (counterexample): A design directory with an aggregate-metrics CSV
and one budget-design structure (so the identity `(design_a, model_0)` is
observed) but no model-level artifact yields zero flattened candidates, not
one: the claimed equality between the candidate count and the observed
identity count fails. -/
theorem flatten_count_counterexample :
    ¬ ((flatten_metrics c1Input).length = (observedIdentities c1Input).length) := by
  with_unfolding_all decide

/-- Claim C1 (amended): The number of flattened Candidate records equals the
number of (design, model) pairs that carry a model-level metric dict —
provided the derived `f"{design_id}_{key}"` full ids are pairwise distinct;
identities observed only through design-level artifacts or through
`_model_ids` structure listings yield no candidate. -/
theorem flatten_count_amended (am : List (String × DesignData))
    (h : (fullIds am).Nodup) :
    (flatten_metrics am).length = (am.map fun p => p.2.models.length).sum := by
  rw [flatten_metrics_eq am h, flatEntries_length]

theorem flatten_count_amended_witness :
    (flatten_metrics c8Input).length = (c8Input.map fun p => p.2.models.length).sum :=
  flatten_count_amended c8Input (by with_unfolding_all decide)

/-- Claim C8: Under distinct full ids and duplicate-free parser dicts, the
flattened candidate of `(d, mk)` is exactly the union of the design's
Boltzgen design-level dict and that model's dict, with model-level keys
taking precedence on collision, plus the two identifier fields; in
particular every model-level metric value reappears unchanged. -/
theorem flatten_entry_union_precedence (am : List (String × DesignData))
    (d : String) (dd : DesignData) (mk : String) (mm : MetricMap)
    (h1 : (d, dd) ∈ am) (h2 : (mk, mm) ∈ dd.models)
    (hids : (fullIds am).Nodup)
    (hb : (Dict.keys dd.boltzgen).Nodup) (hm : (Dict.keys mm).Nodup) :
    Dict.lookup (flatten_metrics am) (d ++ "_" ++ mk)
      = some (flatEntry d dd.boltzgen mk mm) ∧
    (∀ k, k ≠ "design_id" → k ≠ "model_id" →
      Dict.lookup (flatEntry d dd.boltzgen mk mm) k
        = (Dict.lookup mm k).or (Dict.lookup dd.boltzgen k)) ∧
    Dict.lookup (flatEntry d dd.boltzgen mk mm) "design_id" = some (.str d) ∧
    Dict.lookup (flatEntry d dd.boltzgen mk mm) "model_id" = some (.str mk) ∧
    (∀ k v, k ≠ "design_id" → k ≠ "model_id" → Dict.lookup mm k = some v →
      Dict.lookup (flatEntry d dd.boltzgen mk mm) k = some v) := by
  have hunion : ∀ k, k ≠ "design_id" → k ≠ "model_id" →
      Dict.lookup (flatEntry d dd.boltzgen mk mm) k
        = (Dict.lookup mm k).or (Dict.lookup dd.boltzgen k) := by
    intro k hk1 hk2
    rw [flatEntry, Dict.lookup_set_ne _ _ _ _ hk2, Dict.lookup_set_ne _ _ _ _ hk1,
      Dict.lookup_update _ _ _ hm, Dict.lookup_update _ _ _ hb, Dict.lookup_nil]
    cases Dict.lookup mm k <;> cases Dict.lookup dd.boltzgen k <;> rfl
  have hmem : (d ++ "_" ++ mk, flatEntry d dd.boltzgen mk mm) ∈ flatEntries am := by
    simp only [flatEntries, List.mem_flatMap, List.mem_map]
    exact ⟨(d, dd), h1, ⟨(mk, mm), h2, rfl⟩⟩
  refine ⟨?_, hunion, ?_, ?_, ?_⟩
  · rw [flatten_metrics_eq am hids]
    refine Dict.lookup_of_mem _ _ _ hmem ?_
    have hkeq : Dict.keys (flatEntries am) = fullIds am := flatEntries_keys am
    rw [hkeq]
    exact hids
  · rw [flatEntry, Dict.lookup_set_ne _ _ _ _ (by decide), Dict.lookup_set_self]
  · rw [flatEntry, Dict.lookup_set_self]
  · intro k v hk1 hk2 hv
    rw [hunion k hk1 hk2, hv]
    rfl

theorem flatten_entry_union_precedence_witness :
    Dict.lookup (flatten_metrics c8Input) ("design_a" ++ "_" ++ "model_0")
      = some (flatEntry "design_a"
          [("aggregate_plddt", MetricValue.num 90), ("aggregate_ptm", MetricValue.num 1)]
          "model_0"
          [("ipsae_score", MetricValue.num 4), ("aggregate_ptm", MetricValue.num 2)]) :=
  (flatten_entry_union_precedence c8Input "design_a"
    { boltzgen := [("aggregate_plddt", MetricValue.num 90), ("aggregate_ptm", MetricValue.num 1)],
      model_ids := ["model_0"],
      models := [("model_0",
        [("ipsae_score", MetricValue.num 4), ("aggregate_ptm", MetricValue.num 2)])] }
    "model_0"
    [("ipsae_score", MetricValue.num 4), ("aggregate_ptm", MetricValue.num 2)]
    (by with_unfolding_all decide) (by with_unfolding_all decide)
    (by with_unfolding_all decide) (by with_unfolding_all decide)
    (by with_unfolding_all decide)).1

/-! ## Composite-scorer lemmas -/

theorem scoreFold_characterization (m : MetricMap) (weights : List (String × ℚ))
    (h : ∀ mw ∈ weights, numOrAbsent (Dict.lookup m mw.1) = true) (acc : ScoreAcc) :
    (weights.foldl (scoreStep m) acc).score = acc.score + specWeightedSum m weights ∧
    (weights.foldl (scoreStep m) acc).count = acc.count + specContribCount m weights := by
  induction weights generalizing acc with
  | nil => simp [specWeightedSum, specContribCount, contributingMetrics]
  | cons mw t ih =>
      have ht : ∀ x ∈ t, numOrAbsent (Dict.lookup m x.1) = true :=
        fun x hx => h x (List.mem_cons_of_mem _ hx)
      have hmw := h mw (List.mem_cons_self mw t)
      rw [List.foldl_cons]
      rcases hl : Dict.lookup m mw.1 with - | v
      · have hstep : scoreStep m acc mw = acc := by simp [scoreStep, hl]
        have hc : contributingMetrics m (mw :: t) = contributingMetrics m t := by
          simp [contributingMetrics, List.filterMap_cons, hl]
        rw [hstep]
        refine ⟨?_, ?_⟩
        · rw [(ih ht acc).1, specWeightedSum, specWeightedSum, hc]
        · rw [(ih ht acc).2, specContribCount, specContribCount, hc]
      · cases v with
        | null =>
            have hstep : scoreStep m acc mw = acc := by simp [scoreStep, hl]
            have hc : contributingMetrics m (mw :: t) = contributingMetrics m t := by
              simp [contributingMetrics, List.filterMap_cons, hl]
            rw [hstep]
            refine ⟨?_, ?_⟩
            · rw [(ih ht acc).1, specWeightedSum, specWeightedSum, hc]
            · rw [(ih ht acc).2, specContribCount, specContribCount, hc]
        | num q =>
            have hstep : scoreStep m acc mw
                = { score := acc.score + mw.2 * q, count := acc.count + 1,
                    comps := Dict.set acc.comps mw.1 (mw.2 * q) } := by
              simp [scoreStep, hl, pyFloatOfValue]
            have hc : contributingMetrics m (mw :: t)
                = (mw.1, mw.2, q) :: contributingMetrics m t := by
              simp [contributingMetrics, List.filterMap_cons, hl]
            rw [hstep]
            refine ⟨?_, ?_⟩
            · rw [(ih ht _).1]
              simp only [specWeightedSum, hc, List.map_cons, List.sum_cons]
              ring
            · rw [(ih ht _).2]
              simp only [specContribCount, hc, List.length_cons]
              omega
        | str s => rw [hl] at hmw; simp [numOrAbsent] at hmw
        | dictV dl => rw [hl] at hmw; simp [numOrAbsent] at hmw

/-- Claim C2: Over candidates whose weighted metrics are absent, `None` or
numeric (the domain the spec describes), the composite score is the sum of
`weight * value` over exactly the present non-null weighted metrics, divided
by the count of metrics that actually contributed (not the weight-table
size; in Lean `q / 0 = 0`, which agrees with the implementation's guarded
division when nothing contributed). -/
theorem composite_score_is_normalized_weighted_sum (m : MetricMap)
    (weights : List (String × ℚ))
    (h : ∀ mw ∈ weights, numOrAbsent (Dict.lookup m mw.1) = true) :
    (calculate_composite_score m (some weights)).1
      = specWeightedSum m weights / (specContribCount m weights : ℚ) := by
  obtain ⟨hs, hcnt⟩ :=
    scoreFold_characterization m weights h { score := 0, count := 0, comps := [] }
  simp only [calculate_composite_score, Option.getD_some]
  rw [hs, hcnt]
  simp only [zero_add]
  by_cases hc : 0 < specContribCount m weights
  · rw [if_pos hc]
  · rw [if_neg hc]
    have h0 : specContribCount m weights = 0 := Nat.eq_zero_of_not_pos hc
    have hnil : contributingMetrics m weights = [] := List.length_eq_zero.mp h0
    rw [specWeightedSum, hnil]
    simp

theorem composite_score_is_normalized_weighted_sum_witness :
    (calculate_composite_score wMetrics (some wWeights)).1
      = specWeightedSum wMetrics wWeights / (specContribCount wMetrics wWeights : ℚ) :=
  composite_score_is_normalized_weighted_sum wMetrics wWeights (by with_unfolding_all decide)

/-- Claim C3: A candidate in which no weighted metric is present and non-null
gets composite score exactly `0` and recorded contributing-metric count `0`;
and in general the `_metrics_used` field always records the loop's
contributing count, so a zero-contribution candidate is distinguishable from
one whose score merely happens to be near `0`. -/
theorem composite_score_zero_contributing (m : MetricMap)
    (weightsOpt : Option (List (String × ℚ)))
    (h : ∀ mw ∈ weightsOpt.getD defaultWeights,
      Dict.lookup m mw.1 = none ∨ Dict.lookup m mw.1 = some MetricValue.null) :
    (calculate_composite_score m weightsOpt).1 = 0 ∧
    Dict.lookup (calculate_composite_score m weightsOpt).2 "_metrics_used"
      = some (MetricValue.num 0) ∧
    ∀ m2 w2, Dict.lookup (calculate_composite_score m2 w2).2 "_metrics_used"
      = some (MetricValue.num (contribCountImpl m2 w2)) := by
  have hgen : ∀ m2 w2, Dict.lookup (calculate_composite_score m2 w2).2 "_metrics_used"
      = some (MetricValue.num (contribCountImpl m2 w2)) := by
    intro m2 w2
    simp only [calculate_composite_score, contribCountImpl]
    rw [Dict.lookup_set_self]
  have hnum : ∀ mw ∈ weightsOpt.getD defaultWeights,
      numOrAbsent (Dict.lookup m mw.1) = true := by
    intro mw hm
    rcases h mw hm with he | he <;> rw [he] <;> rfl
  obtain ⟨hs, hcnt⟩ := scoreFold_characterization m (weightsOpt.getD defaultWeights) hnum
    { score := 0, count := 0, comps := [] }
  have hnil : contributingMetrics m (weightsOpt.getD defaultWeights) = [] := by
    rw [contributingMetrics, List.filterMap_eq_nil_iff]
    intro mw hm
    rcases h mw hm with he | he <;> simp [he]
  refine ⟨?_, ?_, hgen⟩
  · simp only [calculate_composite_score]
    rw [hs, hcnt]
    simp [specContribCount, specWeightedSum, hnil]
  · rw [hgen m weightsOpt]
    have : contribCountImpl m weightsOpt = 0 := by
      rw [contribCountImpl, hcnt]
      simp [specContribCount, hnil]
    rw [this]
    norm_num

theorem composite_score_zero_contributing_witness :
    (calculate_composite_score [] none).1 = 0 ∧
    Dict.lookup (calculate_composite_score [] none).2 "_metrics_used"
      = some (MetricValue.num 0) ∧
    ∀ m2 w2, Dict.lookup (calculate_composite_score m2 w2).2 "_metrics_used"
      = some (MetricValue.num (contribCountImpl m2 w2)) :=
  composite_score_zero_contributing [] none (by with_unfolding_all decide)

/-! ## Stable-sort lemmas -/

theorem insertRanked_perm (x : RankedEntry) (l : List RankedEntry) :
    (insertRanked x l).Perm (x :: l) := by
  induction l with
  | nil => exact List.Perm.refl _
  | cons y t ih =>
      rw [insertRanked]
      split
      · exact List.Perm.refl _
      · exact (ih.cons y).trans (List.Perm.swap x y t)

theorem sortRanked_perm (l : List RankedEntry) : (sortRanked l).Perm l := by
  induction l with
  | nil => exact List.Perm.refl _
  | cons x t ih =>
      rw [sortRanked]
      exact (insertRanked_perm x (sortRanked t)).trans (ih.cons x)

theorem insertRanked_sorted (x : RankedEntry) (l : List RankedEntry)
    (h : l.Pairwise (fun a b => b.2.2 ≤ a.2.2)) :
    (insertRanked x l).Pairwise (fun a b => b.2.2 ≤ a.2.2) := by
  induction l with
  | nil => simp [insertRanked]
  | cons y t ih =>
      rw [insertRanked]
      rcases List.pairwise_cons.mp h with ⟨hy, ht⟩
      split
      · next hle =>
          refine List.pairwise_cons.mpr ⟨?_, h⟩
          intro b hb
          rcases List.mem_cons.mp hb with rfl | hb'
          · exact hle
          · exact le_trans (hy b hb') hle
      · next hle =>
          refine List.pairwise_cons.mpr ⟨?_, ih ht⟩
          intro b hb
          have hmem := (insertRanked_perm x t).mem_iff.mp hb
          rcases List.mem_cons.mp hmem with rfl | hb'
          · exact (not_le.mp hle).le
          · exact hy b hb'

theorem sortRanked_sorted (l : List RankedEntry) :
    (sortRanked l).Pairwise (fun a b => b.2.2 ≤ a.2.2) := by
  induction l with
  | nil => simp [sortRanked]
  | cons x t ih =>
      rw [sortRanked]
      exact insertRanked_sorted x _ ih

theorem insertRanked_filter (x : RankedEntry) (l : List RankedEntry) (s : ℚ) :
    (insertRanked x l).filter (fun e => e.2.2 == s)
      = (x :: l).filter (fun e => e.2.2 == s) := by
  induction l with
  | nil => rfl
  | cons y t ih =>
      rw [insertRanked]
      split
      · rfl
      · next hle =>
          simp only [List.filter_cons, ih]
          by_cases hx : x.2.2 = s
          · have hy : ¬ (y.2.2 = s) := by
              have hlt : x.2.2 < y.2.2 := not_le.mp hle
              rw [hx] at hlt
              exact fun he => absurd (he ▸ hlt) (lt_irrefl s)
            simp [hx, hy]
          · simp [hx]

theorem sortRanked_filter (l : List RankedEntry) (s : ℚ) :
    (sortRanked l).filter (fun e => e.2.2 == s) = l.filter (fun e => e.2.2 == s) := by
  induction l with
  | nil => rfl
  | cons x t ih =>
      rw [sortRanked, insertRanked_filter, List.filter_cons, List.filter_cons, ih]

/-- Claim C4: `rank_designs` returns a permutation of the scored candidate
list (the same multiset), sorted by composite score in descending order, and
the sort is stable: for every score value, the candidates carrying it appear
in the same relative order as in the (deterministic) input. -/
theorem rank_designs_stable_descending (all_metrics : List (String × MetricMap))
    (weightsOpt : Option (List (String × ℚ))) :
    (rank_designs all_metrics weightsOpt).Perm (rank_designs_unsorted all_metrics weightsOpt) ∧
    (rank_designs all_metrics weightsOpt).Pairwise (fun a b => b.2.2 ≤ a.2.2) ∧
    ∀ s : ℚ, (rank_designs all_metrics weightsOpt).filter (fun e => e.2.2 == s)
      = (rank_designs_unsorted all_metrics weightsOpt).filter (fun e => e.2.2 == s) :=
  ⟨sortRanked_perm _, sortRanked_sorted _, fun s => sortRanked_filter _ s⟩

/-- Claim C10: Scoring is not side-effect-free on its input:
`calculate_composite_score` returns the candidate's dict with exactly
`_score_components` and `_metrics_used` inserted (every other key unchanged),
and `rank_designs` additionally inserts `composite_score`; all other
pre-existing keys and values are untouched. -/
theorem scoring_mutates_metrics_frame :
    (∀ m weightsOpt k, k ≠ "_score_components" → k ≠ "_metrics_used" →
      Dict.lookup (calculate_composite_score m weightsOpt).2 k = Dict.lookup m k) ∧
    (∀ m weightsOpt,
      Dict.lookup (calculate_composite_score m weightsOpt).2 "_score_components"
        = some (MetricValue.dictV (scoreCompsImpl m weightsOpt)) ∧
      Dict.lookup (calculate_composite_score m weightsOpt).2 "_metrics_used"
        = some (MetricValue.num (contribCountImpl m weightsOpt))) ∧
    (∀ am weightsOpt i m, (i, m) ∈ am →
      (i, Dict.set (calculate_composite_score m weightsOpt).2 "composite_score"
            (MetricValue.num (calculate_composite_score m weightsOpt).1),
        (calculate_composite_score m weightsOpt).1) ∈ rank_designs am weightsOpt ∧
      ∀ k, k ≠ "_score_components" → k ≠ "_metrics_used" → k ≠ "composite_score" →
        Dict.lookup (Dict.set (calculate_composite_score m weightsOpt).2 "composite_score"
            (MetricValue.num (calculate_composite_score m weightsOpt).1)) k
          = Dict.lookup m k) := by
  have hframe : ∀ (m : MetricMap) weightsOpt k, k ≠ "_score_components" → k ≠ "_metrics_used" →
      Dict.lookup (calculate_composite_score m weightsOpt).2 k = Dict.lookup m k := by
    intro m weightsOpt k h1 h2
    simp only [calculate_composite_score]
    rw [Dict.lookup_set_ne _ _ _ _ h2, Dict.lookup_set_ne _ _ _ _ h1]
  refine ⟨hframe, ?_, ?_⟩
  · intro m weightsOpt
    constructor
    · simp only [calculate_composite_score, scoreCompsImpl]
      rw [Dict.lookup_set_ne _ _ _ _ (by decide), Dict.lookup_set_self]
    · simp only [calculate_composite_score, contribCountImpl]
      rw [Dict.lookup_set_self]
  · intro am weightsOpt i m hm
    constructor
    · have hmem : (i, Dict.set (calculate_composite_score m weightsOpt).2 "composite_score"
            (MetricValue.num (calculate_composite_score m weightsOpt).1),
          (calculate_composite_score m weightsOpt).1)
          ∈ rank_designs_unsorted am weightsOpt := by
        have := List.mem_map_of_mem
          (fun p : String × MetricMap =>
            ((p.1, Dict.set (calculate_composite_score p.2 weightsOpt).2 "composite_score"
              (MetricValue.num (calculate_composite_score p.2 weightsOpt).1),
              (calculate_composite_score p.2 weightsOpt).1) : RankedEntry)) hm
        exact this
      exact (sortRanked_perm _).mem_iff.mpr hmem
    · intro k h1 h2 h3
      rw [Dict.lookup_set_ne _ _ _ _ h3]
      exact hframe m weightsOpt k h1 h2

theorem scoring_mutates_metrics_frame_witness :
    Dict.lookup (calculate_composite_score wMetrics (some wWeights)).2 "mpnn_score"
      = Dict.lookup wMetrics "mpnn_score" :=
  scoring_mutates_metrics_frame.1 wMetrics (some wWeights) "mpnn_score"
    (by decide) (by decide)

/-- Claim C5: On an empty ranked list, report generation terminates normally
(no exception path exists in the model) and produces well-formed empty
reports: a header-only CSV with the three fixed columns, and a Markdown
summary consisting of the title, a zero count, and `No designs found.`. -/
theorem empty_report_wellformed (top_n : Nat) :
    write_summary_report [] = { header := ["design_id", "rank", "composite_score"], rows := [] } ∧
    write_markdown_report [] top_n
      = ["# Protein Design Consolidation Report\n\n",
         "**Total Designs Analyzed:** 0\n\n",
         "No designs found.\n"] ∧
    "No designs found.\n" ∈ write_markdown_report [] top_n := by
  refine ⟨rfl, rfl, ?_⟩
  show "No designs found.\n" ∈ ["# Protein Design Consolidation Report\n\n",
    "**Total Designs Analyzed:** 0\n\n", "No designs found.\n"]
  simp

/-- Claim C6: None of the three per-tool parsers can propagate an exception:
on every input (missing file, unreadable file, arbitrary contents) each
returns `.ok` with a metrics dict, and it prints exactly one warning when
its `try` body raised and none otherwise. -/
theorem parsers_never_propagate_exceptions :
    ∀ (ip : FileInput (List CsvRow)) (im fi : FileInput (List String)),
      (parse_prodigy_csv ip).isOk = true ∧
      (parse_proteinmpnn_scores im).isOk = true ∧
      (parse_foldseek_summary fi).isOk = true ∧
      warnCount (parse_prodigy_csv ip) = (if prodigyErred ip then 1 else 0) ∧
      warnCount (parse_proteinmpnn_scores im) = (if mpnnErred im then 1 else 0) ∧
      warnCount (parse_foldseek_summary fi) = (if foldseekErred fi then 1 else 0) := by
  intro ip im fi
  refine ⟨?_, ?_, ?_, ?_, ?_, ?_⟩
  · rcases ip with - | e
    · rfl
    · rcases e with e | rows
      · rfl
      · simp only [parse_prodigy_csv]
        rcases prodigyBody rows prodigyInit with ⟨mm, - | err⟩ <;> rfl
  · rcases im with - | e
    · rfl
    · rcases e with e | lines
      · rfl
      · simp only [parse_proteinmpnn_scores]
        rcases mpnnBody lines with acc | err <;> rfl
  · rcases fi with - | e
    · rfl
    · rcases e with e | lines
      · rfl
      · simp only [parse_foldseek_summary]
        rcases foldseekBody lines foldseekInit with ⟨mm, - | err⟩ <;> rfl
  · rcases ip with - | e
    · rfl
    · rcases e with e | rows
      · rfl
      · rcases hpb : prodigyBody rows prodigyInit with ⟨mm, - | err⟩ <;>
          simp [parse_prodigy_csv, prodigyErred, warnCount, hpb]
  · rcases im with - | e
    · rfl
    · rcases e with e | lines
      · rfl
      · rcases hpb : mpnnBody lines with acc | err <;>
          simp [parse_proteinmpnn_scores, mpnnErred, warnCount, hpb, Except.isOk, Except.toBool]
  · rcases fi with - | e
    · rfl
    · rcases e with e | lines
      · rfl
      · rcases hpb : foldseekBody lines foldseekInit with ⟨mm, - | err⟩ <;>
          simp [parse_foldseek_summary, foldseekErred, warnCount, hpb]

/-- Claim C7 (code bug): The located artifact sets are produced by `glob.glob`
without sorting: over a snapshot whose OS listing order is not
lexicographic, the matches come back in listing order (not sorted by path),
and two listings of the same snapshot set give different result orders — so
the sorted-and-listing-independent behaviour the spec requires does not
hold. -/
theorem glob_listing_order_code_bug :
    glob_glob c7Pat c7Listing
      = ["design_b/ipsae_scores/m1_10_10.txt", "design_a/ipsae_scores/m0_10_10.txt"] ∧
    ¬ (glob_glob c7Pat c7Listing).Pairwise (fun a b => pathLe a b = true) ∧
    c7ListingAlt.Perm c7Listing ∧
    glob_glob c7Pat c7ListingAlt ≠ glob_glob c7Pat c7Listing := by
  refine ⟨by decide, by decide, by decide, by decide⟩

/-- Claim C9: A sequence-redesign score file with exactly three record headers
carrying `score=2.10`, `score=2.30` and `score=1.90` parses to
`mpnn_score = 2.10` (the arithmetic mean) and `mpnn_num_sequences = 3`. -/
theorem mpnn_mean_scenario :
    ∃ m, parse_proteinmpnn_scores (some (.ok c9Lines)) = .ok (m, []) ∧
      Dict.lookup m "mpnn_score" = some (MetricValue.num 2.10) ∧
      Dict.lookup m "mpnn_num_sequences" = some (MetricValue.num 3) := by
  refine ⟨mpnnFinish ⟨[2.10, 2.30, 1.90], [2.50, 2.60, 2.40], [0.80, 0.70, 0.75]⟩ mpnnInit,
    ?_, ?_, ?_⟩ <;> with_unfolding_all decide
